import Mathlib

/-!
Verification of the ffmpeg invocation planner of pikaraoke
(`pikaraoke/lib/ffmpeg.py`, function `build_ffmpeg_cmd` and the
capability probe `supports_hardware_h264_encoding`).

The planner is embedded shallowly: option values arrive already typed
(the semitone shift as an integer, the AV-sync offset as a rational —
Python floats are idealised as exact rationals, and the pitch ratio,
the one irrational quantity, as an exact real), filter graphs become an
inductive term type, and the two Python `try/except` blocks become
`Except`-valued primitives whose errors the builder absorbs explicitly.
-/

namespace Pikaraoke

/-- A value handed to the planner for the remix volume: either a value
Python's `float()` parses to a number, or an unparsable one. -/
inductive PyNumInput where
  | num (q : ℚ)
  | unparsable (s : String)

/-- The Python exceptions that can arise inside `build_ffmpeg_cmd`:
`float()` raising `ValueError`, and the stream-binding failure for
`input["a:1"]`. -/
inductive PyErr where
  | valueError
  | streamBindError

/-- Python `float(x)` on the remix-volume argument (line 79): returns the
parsed number or raises. -/
def pyFloat : PyNumInput → Except PyErr ℚ
  | .num q => Except.ok q
  | .unparsable _ => Except.error PyErr.valueError

/-- Python `int()` on a rational: truncation toward zero (line 62). -/
def pyTrunc (q : ℚ) : ℤ := if 0 ≤ q then ⌊q⌋ else -⌊-q⌋

/-- The audio filter nodes `build_ffmpeg_cmd` can emit.  The `adelay`
node's millisecond count is serialized by the code as the per-channel
pair `f"{ms}|{ms}"` (line 63); we keep the integer.  `rubberband`
carries the pitch ratio (line 73), `loudnorm` its three fixed loudness
parameters (line 74), `volume` the linear gain ratio (line 82). -/
inductive AudioFilter where
  | adelay (ms : ℤ)
  | atrim (start : ℚ)
  | rubberband (pitch : ℝ)
  | loudnorm (i : ℤ) (tp : ℚ) (lra : ℤ)
  | volume (ratio : ℚ)

/-- An audio stream term: a selected input stream (`input["a:0"]`,
`input["a:1"]` or `input.audio`, recorded by its selector string), a
unary filter application, or the two-input `amix` merge node
(line 84, with its `inputs` and `dropout_transition` parameters). -/
inductive AStream where
  | input (sel : String)
  | filter (s : AStream) (f : AudioFilter)
  | amix (a : AStream) (b : AStream) (inputs : ℕ) (dropout_transition : ℚ)

/-- The video filter nodes of the CDG path (lines 99-101). -/
inductive VideoFilter where
  | fps (rate : ℕ)
  | scale (w : ℤ) (h : ℤ) (flags : String)
deriving DecidableEq

/-- A video stream term: the main input's own video stream
(`input.video`, line 120), the CDG sidecar input's video
(`ffmpeg.input(fr.cdg_file_path, copyts=None).video`, line 97), or a
filter application. -/
inductive VStream where
  | sourceVideo
  | cdgVideo
  | vfilter (s : VStream) (f : VideoFilter)
deriving DecidableEq

/-- The request descriptor `fr` as used by `build_ffmpeg_cmd`:
file path, extension, optional CDG sidecar path, output target.
`has_second_audio_stream` records whether audio stream index 1 of the
source can be bound. -/
structure FileResolver where
  file_path : String
  file_extension : String
  cdg_file_path : Option String
  output_file : String
  has_second_audio_stream : Bool

/-- The keyword options of `build_ffmpeg_cmd` (lines 16-23), already
typed as the spec's data model prescribes; only the remix volume keeps
its raw, possibly unparsable form. -/
structure Options where
  semitones : ℤ
  normalize_audio : Bool
  buffer_fully_before_playback : Bool
  avsync : ℚ
  cdg_pixel_scaling : Bool
  original_sound : Bool
  original_sound_volume : PyNumInput

/-- The machine environment the capability probe reads: the decoded
stdout of `subprocess.run(["ffmpeg", "-codecs"])`, or `none` when the
binary is missing (`FileNotFoundError`). -/
structure Env where
  codecsProbe : Option String

/-- Substring test (`needle in haystack` on the decoded probe output,
line 172). -/
def strContains (hay needle : String) : Bool :=
  decide (List.IsInfix needle.toList hay.toList)

/-- `supports_hardware_h264_encoding` (lines 165-172): run
`ffmpeg -codecs`; `FileNotFoundError` yields `False`, otherwise test
whether the output mentions `h264_v4l2m2m`.  (The `IndexError` arm is
unreachable: nothing in the body indexes.) -/
def supports_hardware_h264_encoding (env : Env) : Bool :=
  match env.codecsProbe with
  | none => false
  | some out => strContains out "h264_v4l2m2m"

/-- The observable external effects of a planner invocation.
`runFfmpegCodecs` is the `subprocess.run(["ffmpeg", "-codecs"])` probe
performed by `supports_hardware_h264_encoding`. -/
inductive Eff where
  | runFfmpegCodecs
deriving DecidableEq

/-- The probe together with its external effect: calling
`supports_hardware_h264_encoding` always spawns one `ffmpeg -codecs`
subprocess (line 167), whatever the outcome. -/
def supports_hardware_h264_encodingEff (env : Env) : Bool × List Eff :=
  (supports_hardware_h264_encoding env, [Eff.runFfmpegCodecs])

/-- Modelled from the spec: the external stream-binding operation of
lines 45-46 (`input["a:0"]` / `input["a:1"]`, performed by the ffmpeg
binding library, which is not part of this repository).  Per spec §4.1,
binding the `original` role to audio stream 0 and the `processed` role
to audio stream 1 fails exactly when audio stream index 1 does not
exist. -/
def bindAudioStreams (fr : FileResolver) : Except PyErr (AStream × AStream) :=
  if fr.has_second_audio_stream then
    Except.ok (AStream.input "a:0", AStream.input "a:1")
  else
    Except.error PyErr.streamBindError

/-- Lines 44-49: the `try/except` around dual-stream binding; on failure
both roles fall back to `input.audio` (selector `"a"`). -/
def selectedStreams (fr : FileResolver) : AStream × AStream :=
  match bindAudioStreams fr with
  | Except.ok op => op
  | Except.error _ => (AStream.input "a", AStream.input "a")

/-- The stream bound to the `original` role (`orig_audio`). -/
def origSrc (fr : FileResolver) : AStream := (selectedStreams fr).1

/-- The stream bound to the `processed` role (`proc_audio`). -/
def procSrc (fr : FileResolver) : AStream := (selectedStreams fr).2

/-- Line 53: `needs_processing = is_transposed or normalize_audio or
avsync != 0`. -/
def needs_processing (o : Options) : Bool :=
  decide (o.semitones ≠ 0) || o.normalize_audio || decide (o.avsync ≠ 0)

/-- Line 37: the audio codec decision — re-encode with `aac` when any
transposition, normalization, sync shift or remix is requested,
otherwise stream-copy. -/
def acodecDecision (o : Options) : String :=
  if decide (o.semitones ≠ 0) || o.normalize_audio || decide (o.avsync ≠ 0)
      || o.original_sound then "aac" else "copy"

/-- Lines 61-67: sync compensation applied to one stream — a delay of
`int(avsync * 1000)` milliseconds when `avsync > 0`, a trim of
`-avsync` seconds when `avsync < 0`, nothing when `avsync = 0`. -/
def syncApply (avsync : ℚ) (s : AStream) : AStream :=
  if 0 < avsync then AStream.filter s (AudioFilter.adelay (pyTrunc (avsync * 1000)))
  else if avsync < 0 then AStream.filter s (AudioFilter.atrim (-avsync))
  else s

/-- Line 70: `pitch = 2 ** (semitones / 12)`, the semitone to
frequency-ratio conversion (Python float arithmetic idealised as exact
real arithmetic). -/
noncomputable def pitch (semitones : ℤ) : ℝ := 2 ^ ((semitones : ℝ) / 12)

/-- Lines 60-74: the `processed` stream after sync compensation,
optional `rubberband` pitch shift (only when `semitones ≠ 0`) and
optional `loudnorm` normalization with the fixed parameters
`i=-16, tp=-1.5, lra=11`. -/
noncomputable def procChain (fr : FileResolver) (o : Options) : AStream :=
  let p1 := syncApply o.avsync (procSrc fr)
  let p2 := if o.semitones ≠ 0 then
      AStream.filter p1 (AudioFilter.rubberband (pitch o.semitones)) else p1
  if o.normalize_audio then
    AStream.filter p2 (AudioFilter.loudnorm (-16) (-3/2) 11) else p2

/-- Lines 60-67: the `original` stream after the same sync
compensation (no other filter ever touches it before the gain node). -/
def origChain (fr : FileResolver) (o : Options) : AStream :=
  syncApply o.avsync (origSrc fr)

/-- Lines 78-81: `vol = float(original_sound_volume) / 100.0`, with the
`try/except` substituting `0.5` when parsing raises. -/
def volRatio (v : PyNumInput) : ℚ :=
  match pyFloat v with
  | Except.ok q => q / 100
  | Except.error _ => 1/2

/-- Lines 51-88: the audio graph decision.  When nothing needs
processing and no remix is wanted, the `processed` stream passes
through untouched; otherwise the filtered `processed` chain is built
and, when the remix is wanted, merged by a two-input `amix`
(`inputs=2, dropout_transition=0`) with the gain-scaled `original`
chain. -/
noncomputable def audioGraph (fr : FileResolver) (o : Options) : AStream :=
  if needs_processing o = false ∧ o.original_sound = false then
    procSrc fr
  else if o.original_sound then
    AStream.amix (procChain fr o)
      (AStream.filter (origChain fr o) (AudioFilter.volume (volRatio o.original_sound_volume)))
      2 0
  else
    procChain fr o

/-- Line 92: container flags — `+faststart` for fully-buffered playback,
the fragmented streaming-friendly set otherwise. -/
def movflagsChoice (o : Options) : String :=
  if o.buffer_fully_before_playback then "+faststart"
  else "frag_keyframe+default_base_moof"

/-- Lines 98-101: the CDG rasterization chain — `fps=25` frame-rate
normalization, plus a nearest-neighbor `scale(-1, 720)` exactly when
pixel upscaling is requested. -/
def cdgVideoChain (o : Options) : VStream :=
  if o.cdg_pixel_scaling then
    VStream.vfilter (VStream.vfilter VStream.cdgVideo (VideoFilter.fps 25))
      (VideoFilter.scale (-1) 720 "neighbor")
  else
    VStream.vfilter VStream.cdgVideo (VideoFilter.fps 25)

/-- The assembled invocation plan: the fields of the `ffmpeg.output`
call (lines 106-118 on the CDG path, 121-132 otherwise). -/
structure Plan where
  audio : AStream
  video : VStream
  outputFile : String
  vcodec : String
  acodec : String
  preset : String
  pix_fmt : Option String
  listen : ℕ
  f : String
  video_bitrate : String
  movflags : String

/-- `build_ffmpeg_cmd` (lines 15-136).  Returns the plan (or a
propagated Python exception, which the theorems show never escapes)
paired with the list of external subprocess effects the call performs —
the hardware-capability probe of line 27 runs on every invocation. -/
noncomputable def build_ffmpeg_cmd (env : Env) (fr : FileResolver) (o : Options) :
    Except PyErr Plan × List Eff :=
  let probed := supports_hardware_h264_encodingEff env
  let default_vcodec := if probed.1 then "h264_v4l2m2m" else "libx264"
  let vcodec := if fr.file_extension = ".mp4" ∨ fr.file_extension = ".webm"
    then "copy" else default_vcodec
  let vbitrate := "15M"
  let acodec := acodecDecision o
  let audio := audioGraph fr o
  let movflags := movflagsChoice o
  match fr.cdg_file_path with
  | some _ =>
      (Except.ok {
        audio := audio
        video := cdgVideoChain o
        outputFile := fr.output_file
        vcodec := "libx264"
        acodec := "aac"
        preset := "ultrafast"
        pix_fmt := some "yuv420p"
        listen := 1
        f := "mp4"
        video_bitrate := "500k"
        movflags := movflags }, probed.2)
  | none =>
      (Except.ok {
        audio := audio
        video := VStream.sourceVideo
        outputFile := fr.output_file
        vcodec := vcodec
        acodec := acodec
        preset := "ultrafast"
        pix_fmt := none
        listen := 1
        f := "mp4"
        video_bitrate := vbitrate
        movflags := movflags }, probed.2)

/-- The plan of a planner invocation (the error branch is dead: the
builder never raises). -/
noncomputable def thePlan (env : Env) (fr : FileResolver) (o : Options) : Plan :=
  match (build_ffmpeg_cmd env fr o).1 with
  | Except.ok p => p
  | Except.error _ =>
      { audio := AStream.input "a"
        video := VStream.sourceVideo
        outputFile := fr.output_file
        vcodec := ""
        acodec := ""
        preset := ""
        pix_fmt := none
        listen := 1
        f := "mp4"
        video_bitrate := ""
        movflags := "" }

/-! ## Observational predicates on the graph terms -/

/-- Is this filter node a `rubberband` pitch-shift node? -/
def AudioFilter.isRubberband : AudioFilter → Bool
  | .rubberband _ => true
  | _ => false

/-- Is this filter node a sync-compensation node (`adelay` or `atrim`)? -/
def AudioFilter.isSyncNode : AudioFilter → Bool
  | .adelay _ => true
  | .atrim _ => true
  | _ => false

/-- A bare, unfiltered input stream: the pass-through (empty graph)
outcome. -/
def AStream.isBareInput : AStream → Bool
  | .input _ => true
  | _ => false

/-- Number of `amix` merge nodes in the graph. -/
def AStream.countAmix : AStream → ℕ
  | .input _ => 0
  | .filter s _ => AStream.countAmix s
  | .amix a b _ _ => AStream.countAmix a + AStream.countAmix b + 1

/-- Every input leaf of the graph carries the given stream selector. -/
def AStream.allInputsEq (sel : String) : AStream → Bool
  | .input s => decide (s = sel)
  | .filter s _ => AStream.allInputsEq sel s
  | .amix a b _ _ => AStream.allInputsEq sel a && AStream.allInputsEq sel b

/-- Does the graph contain a `rubberband` pitch-shift node? -/
def AStream.hasRubberband : AStream → Bool
  | .input _ => false
  | .filter s f => AStream.hasRubberband s || f.isRubberband
  | .amix a b _ _ => AStream.hasRubberband a || AStream.hasRubberband b

/-- The pitch ratios of all `rubberband` nodes, innermost first. -/
def AStream.rubberbandPitches : AStream → List ℝ
  | .input _ => []
  | .filter s (.rubberband p) => AStream.rubberbandPitches s ++ [p]
  | .filter s _ => AStream.rubberbandPitches s
  | .amix a b _ _ => AStream.rubberbandPitches a ++ AStream.rubberbandPitches b

/-- Does the graph contain a sync-compensation node? -/
def AStream.hasSyncNode : AStream → Bool
  | .input _ => false
  | .filter s f => AStream.hasSyncNode s || f.isSyncNode
  | .amix a b _ _ => AStream.hasSyncNode a || AStream.hasSyncNode b

/-- For a linear filter chain, the filter applied first (directly to the
source input), if any. -/
def AStream.firstFilterOn : AStream → Option AudioFilter
  | .input _ => none
  | .filter (.input _) f => some f
  | .filter s _ => AStream.firstFilterOn s
  | .amix _ _ _ _ => none

/-- Does the video term use the source's own video stream? -/
def VStream.usesSourceVideo : VStream → Bool
  | .sourceVideo => true
  | .cdgVideo => false
  | .vfilter s _ => VStream.usesSourceVideo s

/-- Does the video term apply the given video filter node somewhere? -/
def VStream.hasVFilter (f : VideoFilter) : VStream → Bool
  | .vfilter s g => decide (g = f) || VStream.hasVFilter f s
  | _ => false

/-! ## Concrete fixtures used by the witnesses and counterexamples -/

/-- A machine without ffmpeg installed: the capability probe yields
`false`. -/
def envW : Env := { codecsProbe := none }

/-- A machine whose `ffmpeg -codecs` output does not mention the
hardware encoder. -/
def envSoft : Env := { codecsProbe := some "only software codecs here" }

/-- An mp4 request with two audio streams and no CDG sidecar. -/
def frW : FileResolver :=
  { file_path := "song.mp4"
    file_extension := ".mp4"
    cdg_file_path := none
    output_file := "out.mp4"
    has_second_audio_stream := true }

/-- An mp3+CDG request. -/
def frCdg : FileResolver :=
  { frW with file_path := "song.mp3", file_extension := ".mp3",
             cdg_file_path := some "song.cdg" }

/-- A non-streamable container (avi) without a sidecar. -/
def frAvi : FileResolver :=
  { frW with file_path := "song.avi", file_extension := ".avi" }

/-- A source with a single audio stream. -/
def frSingle : FileResolver := { frW with has_second_audio_stream := false }

/-- Options requesting nothing at all: the cheapest path. -/
def oQuiet : Options :=
  { semitones := 0
    normalize_audio := false
    buffer_fully_before_playback := false
    avsync := 0
    cdg_pixel_scaling := false
    original_sound := false
    original_sound_volume := PyNumInput.num 40 }

/-- Options requesting only the remix of the original vocals. -/
def oRemix : Options := { oQuiet with original_sound := true }

/-- Options requesting only a +12 semitone transposition. -/
def oPitch : Options := { oQuiet with semitones := 12 }

/-- Options requesting only a positive half-second AV-sync delay. -/
def oSync : Options := { oQuiet with avsync := 1/2 }

/-- Options requesting a half-millisecond AV-sync delay (`avsync*1000`
is not a whole number of milliseconds). -/
def oTinySync : Options := { oQuiet with avsync := 1/2000 }

/-- Options requesting the remix at an out-of-range 200% volume. -/
def oLoud : Options :=
  { oQuiet with original_sound := true,
                original_sound_volume := PyNumInput.num 200 }

/-! ## Shared helper lemmas -/

/-- The builder always returns `Except.ok` of the plan: no exception
escapes `build_ffmpeg_cmd`. -/
theorem build_eq_ok (env : Env) (fr : FileResolver) (o : Options) :
    (build_ffmpeg_cmd env fr o).1 = Except.ok (thePlan env fr o) := by
  unfold thePlan build_ffmpeg_cmd
  cases fr.cdg_file_path <;> rfl

/-- On the CDG path the plan is the fixed sidecar output of
lines 106-118. -/
theorem thePlan_cdg (env : Env) (fr : FileResolver) (o : Options) (c : String)
    (h : fr.cdg_file_path = some c) :
    thePlan env fr o =
      { audio := audioGraph fr o
        video := cdgVideoChain o
        outputFile := fr.output_file
        vcodec := "libx264"
        acodec := "aac"
        preset := "ultrafast"
        pix_fmt := some "yuv420p"
        listen := 1
        f := "mp4"
        video_bitrate := "500k"
        movflags := movflagsChoice o } := by
  unfold thePlan build_ffmpeg_cmd
  rw [h]

/-- Without a sidecar the plan is the output of lines 121-132. -/
theorem thePlan_nocdg (env : Env) (fr : FileResolver) (o : Options)
    (h : fr.cdg_file_path = none) :
    thePlan env fr o =
      { audio := audioGraph fr o
        video := VStream.sourceVideo
        outputFile := fr.output_file
        vcodec := if fr.file_extension = ".mp4" ∨ fr.file_extension = ".webm"
          then "copy"
          else if supports_hardware_h264_encoding env then "h264_v4l2m2m" else "libx264"
        acodec := acodecDecision o
        preset := "ultrafast"
        pix_fmt := none
        listen := 1
        f := "mp4"
        video_bitrate := "15M"
        movflags := movflagsChoice o } := by
  unfold thePlan build_ffmpeg_cmd supports_hardware_h264_encodingEff
  rw [h]

/-- When nothing needs processing, steps 1-3 insert no node: the
`processed` chain is the bare selected stream. -/
theorem procChain_no_processing (fr : FileResolver) (o : Options)
    (h : needs_processing o = false) :
    procChain fr o = procSrc fr := by
  have h' : (o.semitones = 0 ∧ o.normalize_audio = false) ∧ o.avsync = 0 := by
    simpa [needs_processing] using h
  simp [procChain, syncApply, h'.1.1, h'.1.2, h'.2]

/-- The selected `processed` stream is always a bare input stream. -/
theorem procSrc_bare (fr : FileResolver) : (procSrc fr).isBareInput = true := by
  unfold procSrc selectedStreams bindAudioStreams
  cases h : fr.has_second_audio_stream <;> simp [AStream.isBareInput]

/-- When processing is needed, at least one filter lands on the
`processed` chain: it is no longer a bare input. -/
theorem procChain_not_bare (fr : FileResolver) (o : Options)
    (h : needs_processing o = true) :
    (procChain fr o).isBareInput = false := by
  unfold procChain syncApply
  rcases Bool.or_eq_true _ _ |>.mp h with h' | h3
  · rcases Bool.or_eq_true _ _ |>.mp h' with h1 | h2
    · have h1' : o.semitones ≠ 0 := by simpa using h1
      by_cases hn : o.normalize_audio <;>
        simp [h1', hn, AStream.isBareInput]
    · by_cases hs : o.semitones ≠ 0 <;>
        simp [hs, h2, AStream.isBareInput]
  · have h3' : o.avsync ≠ 0 := by simpa using h3
    rcases lt_trichotomy o.avsync 0 with hlt | heq | hgt
    · by_cases hs : o.semitones ≠ 0 <;> by_cases hn : o.normalize_audio <;>
        simp [hs, hn, not_lt.mpr (le_of_lt hlt), hlt, AStream.isBareInput]
    · exact absurd heq h3'
    · by_cases hs : o.semitones ≠ 0 <;> by_cases hn : o.normalize_audio <;>
        simp [hs, hn, hgt, AStream.isBareInput]

/-- An `amix` merge node is never the bare pass-through. -/
theorem amix_not_bare (a b : AStream) (i : ℕ) (d : ℚ) :
    (AStream.amix a b i d).isBareInput = false := rfl

/-! ## Claims -/

/-- Claim C1: the audio codec decision is exactly one of "copy" or the
lossy re-encode codec "aac"; it is "copy" if and only if semitones = 0,
normalize = false, avsync = 0 and no remix of the original is
requested; exactly in that case the pass-through (empty-graph) path is
taken, and on the non-sidecar path the plan carries this decision. -/
theorem C1_audio_codec_decision (env : Env) (fr : FileResolver) (o : Options) :
    (acodecDecision o = "copy" ∨ acodecDecision o = "aac")
    ∧ (acodecDecision o = "copy" ↔
        (o.semitones = 0 ∧ o.normalize_audio = false ∧ o.avsync = 0 ∧
          o.original_sound = false))
    ∧ ((audioGraph fr o).isBareInput = true ↔ acodecDecision o = "copy")
    ∧ (fr.cdg_file_path = none → (thePlan env fr o).acodec = acodecDecision o) := by
  have hne : ("aac" : String) ≠ "copy" := by decide
  have hplan : fr.cdg_file_path = none → (thePlan env fr o).acodec = acodecDecision o := by
    intro h
    rw [thePlan_nocdg env fr o h]
  refine ⟨?_, ?_, ?_, hplan⟩
  · unfold acodecDecision
    split
    · right
      rfl
    · left
      rfl
  · unfold acodecDecision
    by_cases h1 : o.semitones = 0 <;> by_cases h2 : o.normalize_audio = true <;>
      by_cases h3 : o.avsync = 0 <;> by_cases h4 : o.original_sound = true <;>
      simp [h1, h2, h3, h4, hne]
  · by_cases h1 : o.semitones = 0 <;> by_cases h2 : o.normalize_audio = true <;>
      by_cases h3 : o.avsync = 0 <;> by_cases h4 : o.original_sound = true <;>
      simp [audioGraph, acodecDecision, needs_processing, h1, h2, h3, h4, hne,
        procSrc_bare, procChain_not_bare, amix_not_bare]

/-- Witness for C1 at a concrete quiet request: the codec decision is
"copy", the graph is the bare pass-through stream, and the assembled
plan carries the decision. -/
theorem C1_witness :
    acodecDecision oQuiet = "copy" ∧ (audioGraph frW oQuiet).isBareInput = true
      ∧ (thePlan envW frW oQuiet).acodec = "copy" := by
  have h := C1_audio_codec_decision envW frW oQuiet
  have hcopy : acodecDecision oQuiet = "copy" :=
    h.2.1.mpr ⟨rfl, rfl, rfl, rfl⟩
  exact ⟨hcopy, h.2.2.1.mpr hcopy, by rw [h.2.2.2 rfl, hcopy]⟩

/-- Sync compensation adds no merge node. -/
theorem countAmix_syncApply (q : ℚ) (s : AStream) :
    (syncApply q s).countAmix = s.countAmix := by
  unfold syncApply
  split
  · simp [AStream.countAmix]
  · split <;> simp [AStream.countAmix]

/-- The selected `processed` stream contains no merge node. -/
theorem countAmix_procSrc (fr : FileResolver) : (procSrc fr).countAmix = 0 := by
  unfold procSrc selectedStreams bindAudioStreams
  cases fr.has_second_audio_stream <;> rfl

/-- The selected `original` stream contains no merge node. -/
theorem countAmix_origSrc (fr : FileResolver) : (origSrc fr).countAmix = 0 := by
  unfold origSrc selectedStreams bindAudioStreams
  cases fr.has_second_audio_stream <;> rfl

/-- The filtered `processed` chain contains no merge node. -/
theorem countAmix_procChain (fr : FileResolver) (o : Options) :
    (procChain fr o).countAmix = 0 := by
  unfold procChain
  by_cases hs : o.semitones ≠ 0 <;> by_cases hn : o.normalize_audio = true <;>
    simp [hs, hn, AStream.countAmix, countAmix_syncApply, countAmix_procSrc]

/-- The sync-compensated `original` chain contains no merge node. -/
theorem countAmix_origChain (fr : FileResolver) (o : Options) :
    (origChain fr o).countAmix = 0 := by
  unfold origChain
  simp [countAmix_syncApply, countAmix_origSrc]

/-- Claim C2: exactly one audio stream reaches the assembled plan.  If
the remix is requested, the graph terminates in a single two-input
`amix` merge (`inputs=2, dropout_transition=0`) of the possibly
filtered `processed` chain with the `original` chain scaled by a gain
node of ratio volume/100 (0.5 when the volume is unparsable); if not,
the final audio is the `processed` chain after steps 1-3; and when no
processing is needed, steps 1-3 insert no node, so the unmodified
`processed` stream is routed into the merge. -/
theorem C2_remix_routing (env : Env) (fr : FileResolver) (o : Options) :
    (thePlan env fr o).audio = audioGraph fr o
    ∧ (o.original_sound = true →
        audioGraph fr o =
          AStream.amix (procChain fr o)
            (AStream.filter (origChain fr o)
              (AudioFilter.volume (volRatio o.original_sound_volume))) 2 0)
    ∧ (o.original_sound = false → audioGraph fr o = procChain fr o)
    ∧ (needs_processing o = false → procChain fr o = procSrc fr)
    ∧ (∀ q : ℚ, volRatio (PyNumInput.num q) = q / 100)
    ∧ (∀ s : String, volRatio (PyNumInput.unparsable s) = 1/2)
    ∧ (audioGraph fr o).countAmix = (if o.original_sound then 1 else 0) := by
  have haudio : (thePlan env fr o).audio = audioGraph fr o := by
    cases h : fr.cdg_file_path with
    | none => rw [thePlan_nocdg env fr o h]
    | some c => rw [thePlan_cdg env fr o c h]
  refine ⟨haudio, ?_, ?_, procChain_no_processing fr o, fun q => rfl, fun s => rfl, ?_⟩
  · intro h4
    simp [audioGraph, h4]
  · intro h4
    by_cases hn : needs_processing o = true
    · simp [audioGraph, h4, hn]
    · have hn' : needs_processing o = false := by simpa using hn
      rw [procChain_no_processing fr o hn']
      simp [audioGraph, h4, hn']
  · by_cases h4 : o.original_sound = true
    · simp [audioGraph, h4, AStream.countAmix, countAmix_procChain, countAmix_origChain]
    · have h4' : o.original_sound = false := by simpa using h4
      by_cases hn : needs_processing o = true <;>
        simp [audioGraph, h4', hn, countAmix_procChain, countAmix_procSrc]

/-- Witness for C2 at a concrete remix-only request: the graph is the
merge of the untouched `processed` stream with the gain-scaled
`original` stream at the default 40% volume. -/
theorem C2_witness :
    audioGraph frW oRemix =
      AStream.amix (AStream.input "a:1")
        (AStream.filter (AStream.input "a:0") (AudioFilter.volume (2/5))) 2 0 := by
  have h := (C2_remix_routing envW frW oRemix).2.1 rfl
  rw [h]
  simp [procChain, origChain, syncApply, procSrc, origSrc, selectedStreams,
    bindAudioStreams, volRatio, pyFloat, oRemix, oQuiet, frW]
  norm_num

/-- Claim C3: with a CDG sidecar present the source's own video stream
never appears in the plan; the video is the sidecar rasterization chain
(`fps=25`, plus a nearest-neighbor `scale(-1,720)` exactly when pixel
upscaling is requested) and video codec, audio codec, preset, pixel
format and bitrate take the fixed sidecar-path values, irrespective of
container kind and hardware capability. -/
theorem C3_sidecar_path (env : Env) (fr : FileResolver) (o : Options) (c : String)
    (h : fr.cdg_file_path = some c) :
    (thePlan env fr o).vcodec = "libx264"
    ∧ (thePlan env fr o).acodec = "aac"
    ∧ (thePlan env fr o).preset = "ultrafast"
    ∧ (thePlan env fr o).pix_fmt = some "yuv420p"
    ∧ (thePlan env fr o).video_bitrate = "500k"
    ∧ (thePlan env fr o).video = cdgVideoChain o
    ∧ (thePlan env fr o).video.usesSourceVideo = false
    ∧ (thePlan env fr o).video.hasVFilter (VideoFilter.fps 25) = true
    ∧ (thePlan env fr o).video.hasVFilter (VideoFilter.scale (-1) 720 "neighbor")
        = o.cdg_pixel_scaling := by
  rw [thePlan_cdg env fr o c h]
  by_cases hp : o.cdg_pixel_scaling = true <;>
    simp [cdgVideoChain, hp, VStream.usesSourceVideo, VStream.hasVFilter]

/-- Witness for C3 at a concrete mp3+CDG request: the plan carries the
fixed sidecar-path values and ignores the source video. -/
theorem C3_witness :
    (thePlan envW frCdg oQuiet).vcodec = "libx264"
    ∧ (thePlan envW frCdg oQuiet).acodec = "aac"
    ∧ (thePlan envW frCdg oQuiet).pix_fmt = some "yuv420p"
    ∧ (thePlan envW frCdg oQuiet).video_bitrate = "500k"
    ∧ (thePlan envW frCdg oQuiet).video.usesSourceVideo = false := by
  have h := C3_sidecar_path envW frCdg oQuiet "song.cdg" rfl
  exact ⟨h.1, h.2.1, h.2.2.2.1, h.2.2.2.2.1, h.2.2.2.2.2.2.1⟩

/-- Claim C4: without a sidecar the video codec is "copy" exactly when
the container is natively streamable (.mp4 or .webm), irrespective of
hardware capability; otherwise it is the hardware encoder
`h264_v4l2m2m` when the capability holds and the software encoder
`libx264` when it does not, and in every non-sidecar case the plan
carries the fixed target bitrate "15M". -/
theorem C4_video_codec_selection (env : Env) (fr : FileResolver) (o : Options)
    (h : fr.cdg_file_path = none) :
    ((thePlan env fr o).vcodec = "copy" ↔
      (fr.file_extension = ".mp4" ∨ fr.file_extension = ".webm"))
    ∧ (¬(fr.file_extension = ".mp4" ∨ fr.file_extension = ".webm") →
        (thePlan env fr o).vcodec =
          (if supports_hardware_h264_encoding env then "h264_v4l2m2m" else "libx264"))
    ∧ (thePlan env fr o).video_bitrate = "15M" := by
  have hne1 : ("h264_v4l2m2m" : String) ≠ "copy" := by decide
  have hne2 : ("libx264" : String) ≠ "copy" := by decide
  rw [thePlan_nocdg env fr o h]
  by_cases he : (fr.file_extension = ".mp4" ∨ fr.file_extension = ".webm") <;>
    by_cases hw : supports_hardware_h264_encoding env = true <;>
    simp [he, hw, hne1, hne2]

/-- Witness for C4 at a concrete avi request on a machine without the
hardware encoder: the software encoder is chosen with the fixed
bitrate. -/
theorem C4_witness :
    (thePlan envW frAvi oQuiet).vcodec = "libx264"
    ∧ (thePlan envW frAvi oQuiet).video_bitrate = "15M" := by
  have h := C4_video_codec_selection envW frAvi oQuiet rfl
  refine ⟨?_, h.2.2⟩
  have h2 := h.2.1 (by decide)
  simpa [supports_hardware_h264_encoding, envW] using h2

/-- The selected `processed` stream is a bare input with some
selector. -/
theorem procSrc_shape (fr : FileResolver) : ∃ sel, procSrc fr = AStream.input sel := by
  unfold procSrc selectedStreams bindAudioStreams
  cases fr.has_second_audio_stream <;> exact ⟨_, rfl⟩

/-- The selected `original` stream is a bare input with some
selector. -/
theorem origSrc_shape (fr : FileResolver) : ∃ sel, origSrc fr = AStream.input sel := by
  unfold origSrc selectedStreams bindAudioStreams
  cases fr.has_second_audio_stream <;> exact ⟨_, rfl⟩

/-- With a positive AV-sync offset, the filter applied first to the
`processed` chain (before pitch shift and normalization) is the delay
node carrying `int(avsync * 1000)` milliseconds. -/
theorem procChain_first_delay (fr : FileResolver) (o : Options) (h : 0 < o.avsync) :
    (procChain fr o).firstFilterOn =
      some (AudioFilter.adelay (pyTrunc (o.avsync * 1000))) := by
  obtain ⟨sel, hsel⟩ := procSrc_shape fr
  by_cases hs : o.semitones ≠ 0 <;> by_cases hn : o.normalize_audio = true <;>
    simp [procChain, syncApply, hsel, h, hs, hn, AStream.firstFilterOn]

/-- With a negative AV-sync offset, the filter applied first to the
`processed` chain is the trim node removing `-avsync` seconds. -/
theorem procChain_first_trim (fr : FileResolver) (o : Options) (h : o.avsync < 0) :
    (procChain fr o).firstFilterOn = some (AudioFilter.atrim (-o.avsync)) := by
  obtain ⟨sel, hsel⟩ := procSrc_shape fr
  by_cases hs : o.semitones ≠ 0 <;> by_cases hn : o.normalize_audio = true <;>
    simp [procChain, syncApply, hsel, not_lt.mpr (le_of_lt h), h, hs, hn,
      AStream.firstFilterOn]

/-- With a zero AV-sync offset, no delay or trim node lands on the
`processed` chain. -/
theorem procChain_no_sync (fr : FileResolver) (o : Options) (h : o.avsync = 0) :
    (procChain fr o).hasSyncNode = false := by
  obtain ⟨sel, hsel⟩ := procSrc_shape fr
  by_cases hs : o.semitones ≠ 0 <;> by_cases hn : o.normalize_audio = true <;>
    simp [procChain, syncApply, hsel, h, hs, hn, AStream.hasSyncNode,
      AudioFilter.isSyncNode]

/-- Claim C5, amended: whenever the graph is built, sync compensation
is applied identically to both streams before any other filter step —
a delay node of `int(avsync * 1000)` milliseconds (the product
truncated toward zero to whole milliseconds) on both streams when
avsync > 0 (0.5 s gives 500 ms on both), a trim node removing
`-avsync` seconds on both when avsync < 0 (−0.5 gives a 0.5 s trim on
both), and no sync node on either when avsync = 0. -/
theorem C5_sync_compensation (fr : FileResolver) (o : Options) :
    (0 < o.avsync →
        (procChain fr o).firstFilterOn =
          some (AudioFilter.adelay (pyTrunc (o.avsync * 1000)))
        ∧ origChain fr o =
          AStream.filter (origSrc fr) (AudioFilter.adelay (pyTrunc (o.avsync * 1000))))
    ∧ (o.avsync < 0 →
        (procChain fr o).firstFilterOn = some (AudioFilter.atrim (-o.avsync))
        ∧ origChain fr o = AStream.filter (origSrc fr) (AudioFilter.atrim (-o.avsync)))
    ∧ (o.avsync = 0 →
        (procChain fr o).hasSyncNode = false ∧ (origChain fr o).hasSyncNode = false)
    ∧ (o.avsync = 1/2 →
        (procChain fr o).firstFilterOn = some (AudioFilter.adelay 500)
        ∧ origChain fr o = AStream.filter (origSrc fr) (AudioFilter.adelay 500))
    ∧ (o.avsync = -(1/2) →
        (procChain fr o).firstFilterOn = some (AudioFilter.atrim (1/2))
        ∧ origChain fr o = AStream.filter (origSrc fr) (AudioFilter.atrim (1/2))) := by
  have hpos : 0 < o.avsync →
      (procChain fr o).firstFilterOn =
        some (AudioFilter.adelay (pyTrunc (o.avsync * 1000)))
      ∧ origChain fr o =
        AStream.filter (origSrc fr) (AudioFilter.adelay (pyTrunc (o.avsync * 1000))) := by
    intro h
    exact ⟨procChain_first_delay fr o h, by simp [origChain, syncApply, h]⟩
  have hneg : o.avsync < 0 →
      (procChain fr o).firstFilterOn = some (AudioFilter.atrim (-o.avsync))
      ∧ origChain fr o = AStream.filter (origSrc fr) (AudioFilter.atrim (-o.avsync)) := by
    intro h
    exact ⟨procChain_first_trim fr o h,
      by simp [origChain, syncApply, not_lt.mpr (le_of_lt h), h]⟩
  refine ⟨hpos, hneg, ?_, ?_, ?_⟩
  · intro h
    obtain ⟨sel, hsel⟩ := origSrc_shape fr
    exact ⟨procChain_no_sync fr o h,
      by simp [origChain, syncApply, hsel, h, AStream.hasSyncNode]⟩
  · intro h
    have h500 : pyTrunc (o.avsync * 1000) = 500 := by
      rw [h]
      norm_num [pyTrunc]
    have := hpos (by rw [h]; norm_num)
    rw [h500] at this
    exact this
  · intro h
    have := hneg (by rw [h]; norm_num)
    rw [h] at this
    norm_num at this
    exact this

/-- Counterexample to C5 as stated: at avsync = 1/2000 the inserted
delay node does not carry `avsync * 1000` milliseconds — the code
truncates `int(avsync * 1000)` to 0 ms while `avsync * 1000` is half a
millisecond. -/
theorem C5_counterexample :
    ¬ ∃ d : ℤ, origChain frW oTinySync =
        AStream.filter (origSrc frW) (AudioFilter.adelay d)
      ∧ (d : ℚ) = oTinySync.avsync * 1000 := by
  rintro ⟨d, h1, h2⟩
  have hc : origChain frW oTinySync =
      AStream.filter (AStream.input "a:0") (AudioFilter.adelay 0) := by
    norm_num [origChain, syncApply, pyTrunc, origSrc, selectedStreams,
      bindAudioStreams, oTinySync, oQuiet, frW]
  have hsrc : origSrc frW = AStream.input "a:0" := rfl
  rw [hc, hsrc] at h1
  have hd : d = 0 := by
    have := h1.symm
    simp [AStream.filter.injEq, AudioFilter.adelay.injEq] at this
    omega
  rw [hd] at h2
  norm_num [oTinySync, oQuiet] at h2

/-- Witness for the amended C5 at avsync = 1/2: a 500 ms delay node is
applied first on both the `processed` and the `original` chain. -/
theorem C5_witness :
    (procChain frW oSync).firstFilterOn = some (AudioFilter.adelay 500)
    ∧ origChain frW oSync = AStream.filter (origSrc frW) (AudioFilter.adelay 500) := by
  have h := C5_sync_compensation frW oSync
  exact h.2.2.2.1 rfl

/-- Sync compensation adds no pitch-shift node. -/
theorem hasRubberband_syncApply (q : ℚ) (s : AStream) :
    (syncApply q s).hasRubberband = s.hasRubberband := by
  unfold syncApply
  split
  · simp [AStream.hasRubberband, AudioFilter.isRubberband]
  · split <;> simp [AStream.hasRubberband, AudioFilter.isRubberband]

/-- The selected `processed` stream has no pitch-shift node. -/
theorem hasRubberband_procSrc (fr : FileResolver) :
    (procSrc fr).hasRubberband = false := by
  unfold procSrc selectedStreams bindAudioStreams
  cases fr.has_second_audio_stream <;> rfl

/-- The selected `original` stream has no pitch-shift node. -/
theorem hasRubberband_origSrc (fr : FileResolver) :
    (origSrc fr).hasRubberband = false := by
  unfold origSrc selectedStreams bindAudioStreams
  cases fr.has_second_audio_stream <;> rfl

/-- Sync compensation contributes no pitch ratio. -/
theorem rubberbandPitches_syncApply (q : ℚ) (s : AStream) :
    (syncApply q s).rubberbandPitches = s.rubberbandPitches := by
  unfold syncApply
  split
  · simp [AStream.rubberbandPitches]
  · split <;> simp [AStream.rubberbandPitches]

/-- The selected `processed` stream carries no pitch ratio. -/
theorem rubberbandPitches_procSrc (fr : FileResolver) :
    (procSrc fr).rubberbandPitches = [] := by
  unfold procSrc selectedStreams bindAudioStreams
  cases fr.has_second_audio_stream <;> rfl

/-- The pitch ratio for -12 semitones is exactly one half. -/
theorem pitch_neg_twelve : pitch (-12) = 1/2 := by
  unfold pitch
  rw [show (((-12 : ℤ) : ℝ)) / 12 = ((-1 : ℤ) : ℝ) by norm_num, Real.rpow_intCast]
  norm_num

/-- The pitch ratio for 0 semitones is exactly one. -/
theorem pitch_zero : pitch 0 = 1 := by
  unfold pitch
  rw [show (((0 : ℤ) : ℝ)) / 12 = (0 : ℝ) by norm_num, Real.rpow_zero]

/-- The pitch ratio for +12 semitones is exactly two. -/
theorem pitch_twelve : pitch 12 = 2 := by
  unfold pitch
  rw [show (((12 : ℤ) : ℝ)) / 12 = (1 : ℝ) by norm_num, Real.rpow_one]

/-- The pitch ratio for +7 semitones is ≈ 1.498: it lies strictly
between 1.498 and 1.499. -/
theorem pitch_seven_bounds : 1.498 < pitch 7 ∧ pitch 7 < 1.499 := by
  have h0 : (0:ℝ) ≤ 2 := by norm_num
  have hp : (0:ℝ) < pitch 7 := Real.rpow_pos_of_pos (by norm_num) _
  have h12 : pitch 7 ^ (12 : ℕ) = 128 := by
    unfold pitch
    rw [← Real.rpow_natCast ((2:ℝ) ^ (((7:ℤ):ℝ)/12)) 12, ← Real.rpow_mul h0,
      show (((7:ℤ):ℝ)/12) * ((12:ℕ):ℝ) = ((7:ℕ):ℝ) by norm_num,
      Real.rpow_natCast]
    norm_num
  constructor
  · have h1 : (1.498 : ℝ) ^ (12:ℕ) < pitch 7 ^ (12:ℕ) := by
      rw [h12]
      norm_num
    exact lt_of_pow_lt_pow_left₀ 12 (le_of_lt hp) h1
  · have h2 : pitch 7 ^ (12:ℕ) < (1.499 : ℝ) ^ (12:ℕ) := by
      rw [h12]
      norm_num
    exact lt_of_pow_lt_pow_left₀ 12 (by norm_num) h2

/-- Claim C6: a pitch-shift node is inserted on the `processed` chain
exactly when semitones ≠ 0, carrying the ratio 2^(semitones/12); no
pitch node ever lands on the `original` side; and the ratio at
semitones ∈ \x7b-12, 0, 7, 12\x7d is 1/2, 1, ≈1.498 (between 1.498 and
1.499), and 2. -/
theorem C6_pitch_shift (fr : FileResolver) (o : Options) :
    ((procChain fr o).hasRubberband = decide (o.semitones ≠ 0))
    ∧ (o.semitones ≠ 0 →
        (procChain fr o).rubberbandPitches = [(2 : ℝ) ^ ((o.semitones : ℝ) / 12)])
    ∧ (origChain fr o).hasRubberband = false
    ∧ (AStream.filter (origChain fr o)
        (AudioFilter.volume (volRatio o.original_sound_volume))).hasRubberband = false
    ∧ pitch (-12) = 1/2 ∧ pitch 0 = 1 ∧ pitch 12 = 2
    ∧ (1.498 < pitch 7 ∧ pitch 7 < 1.499) := by
  have horig : (origChain fr o).hasRubberband = false := by
    simp [origChain, hasRubberband_syncApply, hasRubberband_origSrc]
  refine ⟨?_, ?_, horig, ?_, pitch_neg_twelve, pitch_zero, pitch_twelve,
    pitch_seven_bounds⟩
  · by_cases hs : o.semitones = 0 <;> by_cases hn : o.normalize_audio = true <;>
      simp [procChain, hs, hn, AStream.hasRubberband, AudioFilter.isRubberband,
        hasRubberband_syncApply, hasRubberband_procSrc]
  · intro hs
    by_cases hn : o.normalize_audio = true <;>
      simp [procChain, hs, hn, AStream.rubberbandPitches,
        rubberbandPitches_syncApply, rubberbandPitches_procSrc, pitch]
  · simp [AStream.hasRubberband, AudioFilter.isRubberband, horig]

/-- Witness for C6 at a concrete +12 semitone request: the single pitch
node carries ratio 2. -/
theorem C6_witness :
    (procChain frW oPitch).rubberbandPitches = [(2 : ℝ)] := by
  have h := C6_pitch_shift frW oPitch
  have h2 := h.2.1 (by decide)
  rw [h2, show (2 : ℝ) ^ ((oPitch.semitones : ℝ) / 12) = pitch 12 from rfl,
    pitch_twelve]

/-- Sync compensation preserves the set of input selectors. -/
theorem allInputsEq_syncApply (sel : String) (q : ℚ) (s : AStream) :
    (syncApply q s).allInputsEq sel = s.allInputsEq sel := by
  unfold syncApply
  split
  · simp [AStream.allInputsEq]
  · split <;> simp [AStream.allInputsEq]

/-- The filtered `processed` chain reads exactly the input selectors of
the selected `processed` stream. -/
theorem allInputsEq_procChain (sel : String) (fr : FileResolver) (o : Options) :
    (procChain fr o).allInputsEq sel = (procSrc fr).allInputsEq sel := by
  by_cases hs : o.semitones = 0 <;> by_cases hn : o.normalize_audio = true <;>
    simp [procChain, hs, hn, AStream.allInputsEq, allInputsEq_syncApply]

/-- Claim C7: when audio stream index 1 cannot be bound, no error is
raised — both the `original` and the `processed` role fall back to the
single available audio stream (`input.audio`), and when a remix is also
requested the plan still contains exactly one merge node, both of whose
inputs derive from that same stream. -/
theorem C7_single_stream_fallback (env : Env) (fr : FileResolver) (o : Options)
    (h : fr.has_second_audio_stream = false) :
    (∃ p : Plan, (build_ffmpeg_cmd env fr o).1 = Except.ok p)
    ∧ origSrc fr = AStream.input "a"
    ∧ procSrc fr = AStream.input "a"
    ∧ (o.original_sound = true →
        (audioGraph fr o).countAmix = 1
        ∧ (audioGraph fr o).allInputsEq "a" = true) := by
  have horig : origSrc fr = AStream.input "a" := by
    simp [origSrc, selectedStreams, bindAudioStreams, h]
  have hproc : procSrc fr = AStream.input "a" := by
    simp [procSrc, selectedStreams, bindAudioStreams, h]
  refine ⟨⟨thePlan env fr o, build_eq_ok env fr o⟩, horig, hproc, ?_⟩
  intro h4
  constructor
  · simp [audioGraph, h4, AStream.countAmix, countAmix_procChain,
      countAmix_origChain]
  · simp [audioGraph, h4, AStream.allInputsEq, allInputsEq_procChain,
      origChain, allInputsEq_syncApply, horig, hproc]

/-- Witness for C7 at a concrete single-audio-stream remix request:
both roles bind to `input.audio` and the graph has exactly one merge
node over that single stream. -/
theorem C7_witness :
    origSrc frSingle = AStream.input "a"
    ∧ procSrc frSingle = AStream.input "a"
    ∧ (audioGraph frSingle oRemix).countAmix = 1
    ∧ (audioGraph frSingle oRemix).allInputsEq "a" = true := by
  have h := C7_single_stream_fallback envW frSingle oRemix rfl
  exact ⟨h.2.1, h.2.2.1, (h.2.2.2 rfl).1, (h.2.2.2 rfl).2⟩

/-- Claim C8: for every combination of option values — every semitone
shift, flag setting, avsync value, and remix-volume value including
unparsable ones — the planner returns an invocation plan and raises no
error: the error branches inside the builder are absorbed by their
fallbacks. -/
theorem C8_no_errors (env : Env) (fr : FileResolver) (o : Options) :
    ∃ p : Plan, (build_ffmpeg_cmd env fr o).1 = Except.ok p :=
  ⟨thePlan env fr o, build_eq_ok env fr o⟩

/-- Counterexample to C9 as stated: the planner is not free of external
I/O and does re-probe — already at this concrete input the builder's
effect trace contains the `ffmpeg -codecs` capability-probe subprocess
call (line 27 calls the probe of lines 165-172 on every invocation). -/
theorem C9_counterexample :
    (build_ffmpeg_cmd envW frW oQuiet).2 = [Eff.runFfmpegCodecs]
    ∧ (build_ffmpeg_cmd envW frW oQuiet).2 ≠ ([] : List Eff) := by
  refine ⟨rfl, ?_⟩
  intro h
  rw [show (build_ffmpeg_cmd envW frW oQuiet).2 = [Eff.runFfmpegCodecs] from rfl] at h
  simp at h

/-- Claim C9, amended: the planner is deterministic given the probed
capability — two invocations whose environments agree on the probe
result produce equal plans — but the builder performs the
hardware-capability probe itself, running exactly one `ffmpeg -codecs`
subprocess per invocation instead of receiving the capability as an
already-resolved input. -/
theorem C9_determinism_given_probe (env env' : Env) (fr : FileResolver) (o : Options)
    (h : supports_hardware_h264_encoding env = supports_hardware_h264_encoding env') :
    (build_ffmpeg_cmd env fr o).1 = (build_ffmpeg_cmd env' fr o).1
    ∧ (build_ffmpeg_cmd env fr o).2 = [Eff.runFfmpegCodecs] := by
  constructor
  · unfold build_ffmpeg_cmd supports_hardware_h264_encodingEff
    rw [h]
  · unfold build_ffmpeg_cmd supports_hardware_h264_encodingEff
    cases fr.cdg_file_path <;> rfl

/-- Witness for the amended C9: a machine without ffmpeg and a machine
whose codec list lacks the hardware encoder probe to the same
capability, and the plans coincide; the effect trace is the single
probe call. -/
theorem C9_witness :
    (build_ffmpeg_cmd envW frW oQuiet).1 = (build_ffmpeg_cmd envSoft frW oQuiet).1
    ∧ (build_ffmpeg_cmd envW frW oQuiet).2 = [Eff.runFfmpegCodecs] :=
  C9_determinism_given_probe envW envSoft frW oQuiet (by decide)

/-- Claim C10 (implicit): the remix volume is not clamped to the
documented [0,100] range — every parsable value v yields gain ratio
exactly v/100 (200 yields 2.0, -50 yields -0.5) and lands as such in
the graph's gain node; only an unparsable value triggers the 0.5
default. -/
theorem C10_volume_unclamped (fr : FileResolver) (o : Options) (q : ℚ)
    (h1 : o.original_sound = true) (h2 : o.original_sound_volume = PyNumInput.num q) :
    volRatio o.original_sound_volume = q / 100
    ∧ audioGraph fr o =
        AStream.amix (procChain fr o)
          (AStream.filter (origChain fr o) (AudioFilter.volume (q / 100))) 2 0
    ∧ volRatio (PyNumInput.num 200) = 2
    ∧ volRatio (PyNumInput.num (-50)) = -(1/2)
    ∧ (∀ s, volRatio (PyNumInput.unparsable s) = 1/2) := by
  have hv : volRatio o.original_sound_volume = q / 100 := by
    rw [h2]
    rfl
  refine ⟨hv, ?_, by norm_num [volRatio, pyFloat],
    by norm_num [volRatio, pyFloat], fun s => rfl⟩
  rw [show AStream.filter (origChain fr o) (AudioFilter.volume (q / 100))
      = AStream.filter (origChain fr o)
          (AudioFilter.volume (volRatio o.original_sound_volume)) by rw [hv]]
  simp [audioGraph, h1]

/-- Witness for C10 at a concrete 200% remix request: the gain node
carries ratio 2, outside the documented [0,100] percentage range. -/
theorem C10_witness :
    volRatio (PyNumInput.num 200) = 2
    ∧ audioGraph frW oLoud =
        AStream.amix (AStream.input "a:1")
          (AStream.filter (AStream.input "a:0") (AudioFilter.volume 2)) 2 0 := by
  have h := C10_volume_unclamped frW oLoud 200 rfl rfl
  refine ⟨h.2.2.1, ?_⟩
  rw [h.2.1]
  simp [procChain, origChain, syncApply, procSrc, origSrc, selectedStreams,
    bindAudioStreams, oLoud, oQuiet, frW]
  norm_num

end Pikaraoke
